import Mathlib

/-!
Shallow embedding of the thermal-toy plant core (`src/thermal_toy/dynamics.py`
and the device modules) over exact rationals, together with theorems settling
the spec claims about battery projection, thermal balance, grid netting and
device actuators.
-/

namespace ThermalToy

/-- numpy-style clip: `np.clip(x, lo, hi) = min(max(x, lo), hi)`. -/
def clip (x lo hi : ℚ) : ℚ := min (max x lo) hi

/-- `ThermalParams` dataclass from dynamics.py. -/
structure ThermalParams where
  dt_h : ℚ
  C_th_kwh_per_degC : ℚ
  U_kw_per_degC : ℚ
  clip_temp_c : ℚ × ℚ := (-10, 40)
  heater_pmax_kw : ℚ := 3
  heater_eff : ℚ := 1

/-- `BatteryParams` dataclass from dynamics.py. -/
structure BatteryParams where
  e_kwh : ℚ := 0
  p_ch_max_kw : ℚ := 0
  p_dis_max_kw : ℚ := 0
  eta_ch : ℚ := 19/20
  eta_dis : ℚ := 19/20
  soc_min : ℚ := 1/10
  soc_max : ℚ := 9/10

/-- `ElectricLimits` dataclass from dynamics.py. -/
structure ElectricLimits where
  gmax_kw : ℚ := 10^9
  allow_export : Bool := true

/-- `PlantState` dataclass from dynamics.py: indoor temperature plus optional SOC. -/
structure PlantState where
  Tin_c : ℚ
  soc : Option ℚ := none

/-- `Exogenous` dataclass from dynamics.py. -/
structure Exogenous where
  Tout_c : ℚ
  base_load_kw : ℚ := 0
  pv_potential_kw : ℚ := 0

/-- `Ports` dataclass from dynamics.py: the per-step device signal bus. -/
structure Ports where
  q_heat_kw : ℚ := 0
  elec_load_kw : ℚ := 0
  p_batt_ch_kw : ℚ := 0
  p_batt_dis_kw : ℚ := 0
  pv_used_kw : ℚ := 0

/-- `_battery_project` from dynamics.py: clips intents to power limits, enforces
mutual exclusivity (keep the larger side, tie keeps charge), applies the bucket
SOC update, scales charge or discharge down when a SOC bound would be crossed,
and finally clamps the SOC into bounds.  Returns `(p_ch, p_dis, soc_next)`. -/
def battery_project (p_ch_kw p_dis_kw soc : ℚ) (th : ThermalParams)
    (bat : BatteryParams) : ℚ × ℚ × ℚ :=
  let dt := th.dt_h
  let p_ch0 := clip p_ch_kw 0 bat.p_ch_max_kw
  let p_dis0 := clip p_dis_kw 0 bat.p_dis_max_kw
  let p_ch1 := if p_ch0 > 0 ∧ p_dis0 > 0 then (if p_ch0 ≥ p_dis0 then p_ch0 else 0) else p_ch0
  let p_dis1 := if p_ch0 > 0 ∧ p_dis0 > 0 then (if p_ch0 ≥ p_dis0 then 0 else p_dis0) else p_dis0
  let soc_prev := clip soc 0 1
  let denomE := max bat.e_kwh (1/10^9)
  let soc_next1 := soc_prev + bat.eta_ch * p_ch1 * dt / denomE
                            - p_dis1 * dt / (bat.eta_dis * denomE)
  let p_ch2 :=
    if soc_next1 > bat.soc_max ∧ p_ch1 > 0 then
      let over := soc_next1 - bat.soc_max
      let denom := bat.eta_ch * p_ch1 * dt / denomE
      let s := if denom ≤ 0 then 0 else max 0 (1 - over / denom)
      p_ch1 * s
    else p_ch1
  let soc_next2 :=
    if soc_next1 > bat.soc_max ∧ p_ch1 > 0 then
      soc_prev + bat.eta_ch * p_ch2 * dt / denomE - p_dis1 * dt / (bat.eta_dis * denomE)
    else soc_next1
  let p_dis2 :=
    if soc_next2 < bat.soc_min ∧ p_dis1 > 0 then
      let under := bat.soc_min - soc_next2
      let denom := p_dis1 * dt / (bat.eta_dis * denomE)
      let s := if denom ≤ 0 then 0 else max 0 (1 - under / denom)
      p_dis1 * s
    else p_dis1
  let soc_next3 :=
    if soc_next2 < bat.soc_min ∧ p_dis1 > 0 then
      soc_prev + bat.eta_ch * p_ch2 * dt / denomE - p_dis2 * dt / (bat.eta_dis * denomE)
    else soc_next2
  (p_ch2, p_dis2, clip soc_next3 bat.soc_min bat.soc_max)

/-- `_thermal_step` from dynamics.py.  Returns `(T_next_c, q_loss_kw, dT)`. -/
def thermal_step (Tin_c Tout_c q_heat_kw : ℚ) (th : ThermalParams) : ℚ × ℚ × ℚ :=
  let q_loss_kw := th.U_kw_per_degC * (Tout_c - Tin_c)
  let dT := (th.dt_h / th.C_th_kwh_per_degC) * (q_loss_kw + q_heat_kw)
  (clip (Tin_c + dT) th.clip_temp_c.1 th.clip_temp_c.2, q_loss_kw, dT)

/-- The diagnostics record built by `plant_step_multi` (the info dict fields). -/
structure StepInfo where
  Tin_next_c : ℚ
  q_heat_kw : ℚ
  q_loss_kw : ℚ
  dT : ℚ
  p_batt_ch_kw : ℚ
  p_batt_dis_kw : ℚ
  base_load_kw : ℚ
  elec_load_kw : ℚ
  pv_used_kw : ℚ
  net_kw : ℚ
  g_import_kw : ℚ
  g_export_kw : ℚ
  g_import_kwh : ℚ
  g_export_kwh : ℚ
  elec_energy_kwh : ℚ
  soc_next : Option ℚ

/-- `plant_step_multi` from dynamics.py: thermal update, optional battery
projection (skipped when the battery is absent, has non-positive capacity, or
the state has no SOC), then electric netting with the export flag and import
cap. -/
def plant_step_multi (state : PlantState) (exog : Exogenous) (ports : Ports)
    (th : ThermalParams) (bat : Option BatteryParams := none)
    (limits0 : Option ElectricLimits := none) : PlantState × StepInfo :=
  let limits := limits0.getD {}
  let dt := th.dt_h
  let t := thermal_step state.Tin_c exog.Tout_c ports.q_heat_kw th
  let batr : ℚ × ℚ × Option ℚ :=
    match bat, state.soc with
    | some b, some s =>
        if b.e_kwh > 0 then
          let r := battery_project ports.p_batt_ch_kw ports.p_batt_dis_kw s th b
          (r.1, r.2.1, some r.2.2)
        else (0, 0, state.soc)
    | _, _ => (0, 0, state.soc)
  let p_ch_proj := batr.1
  let p_dis_proj := batr.2.1
  let soc_next := batr.2.2
  let elec_load_kw := max 0 ports.elec_load_kw
  let base_kw := max 0 exog.base_load_kw
  let pv_used_kw := max 0 (min ports.pv_used_kw exog.pv_potential_kw)
  let net_kw := base_kw + elec_load_kw + p_ch_proj - pv_used_kw - p_dis_proj
  let g_import0 := max 0 net_kw
  let g_export_kw := if limits.allow_export then max 0 (-net_kw) else 0
  let g_import_kw := min g_import0 limits.gmax_kw
  (⟨t.1, soc_next⟩,
   { Tin_next_c := t.1
     q_heat_kw := ports.q_heat_kw
     q_loss_kw := t.2.1
     dT := t.2.2
     p_batt_ch_kw := p_ch_proj
     p_batt_dis_kw := p_dis_proj
     base_load_kw := base_kw
     elec_load_kw := elec_load_kw
     pv_used_kw := pv_used_kw
     net_kw := net_kw
     g_import_kw := g_import_kw
     g_export_kw := g_export_kw
     g_import_kwh := g_import_kw * dt
     g_export_kwh := g_export_kw * dt
     elec_energy_kwh := elec_load_kw * dt
     soc_next := soc_next })

/-- `Clamp` helper from devices/base.py. -/
structure Clamp where
  lo : ℚ
  hi : ℚ

/-- `Clamp.__call__`: `max(lo, min(hi, x))`. -/
def Clamp.call (c : Clamp) (x : ℚ) : ℚ := max c.lo (min c.hi x)

/-- The shared `_clip_bi = Clamp(-1.0, 1.0)` default. -/
def clip_bi : Clamp := ⟨-1, 1⟩

/-- The shared `_clip_uni = Clamp(0.0, 1.0)` default. -/
def clip_uni : Clamp := ⟨0, 1⟩

/-- Mode diagnostic string emitted by the thermal devices. -/
inductive HeatMode where
  | heat
  | cool
  | idle
deriving DecidableEq, Repr

/-- Action argument of `BatteryActuator.forward`: a scalar or a pair,
mirroring the `isinstance(action, (tuple, list))` dispatch. -/
inductive BattAction where
  | scalar (a : ℚ)
  | pair (a_ch a_dis : ℚ)

/-- `BatteryActuator` dataclass from devices/battery.py. -/
structure BatteryActuator where
  p_ch_max_kw : ℚ
  p_dis_max_kw : ℚ
  map_split : Bool := false

/-- `BatteryActuator.forward` from devices/battery.py, returning
`(p_batt_ch_kw, p_batt_dis_kw)`.  In split mode both components are clamped to
`[0,1]`, then only the strictly larger request survives (`if a_ch > a_dis`);
in signed mode a scalar in `[-1,1]` selects charge or discharge.  A pair given
to a non-split actuator is a `TypeError` in the source (`float(tuple)`),
modelled as `none`. -/
def BatteryActuator.forward (self : BatteryActuator) (action : BattAction) :
    Option (ℚ × ℚ) :=
  if self.map_split then
    let ad := match action with
      | .pair c d => (c, d)
      | .scalar a => (a, 0)
    let a_ch := clip_uni.call ad.1
    let a_dis := clip_uni.call ad.2
    let a_ch1 := if a_ch > a_dis then a_ch else 0
    let a_dis1 := if a_ch > a_dis then 0 else a_dis
    some (a_ch1 * self.p_ch_max_kw, a_dis1 * self.p_dis_max_kw)
  else
    match action with
    | .scalar a =>
        let u := clip_bi.call a
        if u ≥ 0 then some (u * self.p_ch_max_kw, 0)
        else some (0, (-u) * self.p_dis_max_kw)
    | .pair _ _ => none

/-- `PVInverter.forward` from devices/pv.py: a missing potential is treated as
zero, the action is clamped to `[0,1]`, and the result floored at zero. -/
def PVInverter.forward (action : ℚ) (pv_potential_kw : Option ℚ) : ℚ :=
  let pv := pv_potential_kw.getD 0
  let a := clip_uni.call action
  max 0 (a * pv)

/-- Output record of `ResistiveHeater.forward`. -/
structure ResistiveOut where
  q_heat_kw : ℚ
  elec_load_kw : ℚ
  elec_energy_kwh : ℚ
  mode : HeatMode
deriving DecidableEq

/-- `ResistiveHeater` dataclass from devices/resistive.py. -/
structure ResistiveHeater where
  pmax_kw : ℚ
  eff : ℚ := 1

/-- `ResistiveHeater.forward` from devices/resistive.py. -/
def ResistiveHeater.forward (self : ResistiveHeater) (action dt_h : ℚ) :
    ResistiveOut :=
  let a := clip_uni.call action
  let elec_power_kw := self.pmax_kw * a
  let q_heat_kw := self.eff * elec_power_kw
  ⟨q_heat_kw, elec_power_kw, elec_power_kw * dt_h, if a > 0 then .heat else .idle⟩

/-- `BiDirectionalHeatPump` dataclass from devices/heat_pump_bidir.py. -/
structure BiDirectionalHeatPump where
  pmax_kw : ℚ
  cop_fn : Option (ℚ → ℚ) := none
  cop_ref : ℚ := 3
  t_ref_c : ℚ := 7
  cop_slope_per_degC : ℚ := 1/20
  cop_min : ℚ := 3/2
  cop_max : ℚ := 11/2
  accept_unsigned_action : Bool := false

/-- `BiDirectionalHeatPump._cop`: injected lookup floored at 0.1, or the affine
model clamped to `[cop_min, cop_max]`. -/
def BiDirectionalHeatPump.cop (self : BiDirectionalHeatPump) (t_out_c : ℚ) : ℚ :=
  match self.cop_fn with
  | some f => max (1/10) (f t_out_c)
  | none =>
      let raw := self.cop_ref + self.cop_slope_per_degC * (t_out_c - self.t_ref_c)
      min self.cop_max (max self.cop_min raw)

/-- Output record of `BiDirectionalHeatPump.forward`. -/
structure HPOut where
  q_heat_kw : ℚ
  elec_load_kw : ℚ
  elec_energy_kwh : ℚ
  mode : HeatMode
  cop : ℚ

/-- `BiDirectionalHeatPump.forward` from devices/heat_pump_bidir.py.  Raises
(`none`) exactly when no ambient temperature is supplied; otherwise clamps the
action, maps unsigned actions to `[-1,1]`, and produces signed heat at the
current COP. -/
def BiDirectionalHeatPump.forward (self : BiDirectionalHeatPump)
    (action dt_h : ℚ) (t_out_c : Option ℚ) : Option HPOut :=
  match t_out_c with
  | none => none
  | some t =>
      let u0 := if self.accept_unsigned_action then clip_uni.call action
                else clip_bi.call action
      let u := if self.accept_unsigned_action then 2 * u0 - 1 else u0
      let mag := |u|
      let elec_power_kw := self.pmax_kw * mag
      let c := self.cop t
      let q_heat_kw := (if u ≥ 0 then 1 else -1) * c * elec_power_kw
      some ⟨q_heat_kw, elec_power_kw, elec_power_kw * dt_h,
            if u > 0 then .heat else if u < 0 then .cool else .idle, c⟩

/-! ## Helper lemmas -/

/-- Clamping with ordered bounds lands in the closed interval. -/
theorem clip_mem (x lo hi : ℚ) (h : lo ≤ hi) : lo ≤ clip x lo hi ∧ clip x lo hi ≤ hi := by
  unfold clip
  exact ⟨le_min (le_max_right x lo) h, min_le_right _ _⟩

/-- The SOC returned by `battery_project` is literally a clamp into the SOC
bounds (the final defensive `np.clip`). -/
theorem battery_project_soc_shape (p_ch_kw p_dis_kw soc : ℚ) (th : ThermalParams)
    (bat : BatteryParams) :
    ∃ x, (battery_project p_ch_kw p_dis_kw soc th bat).2.2 =
      clip x bat.soc_min bat.soc_max :=
  ⟨_, rfl⟩

/-- A `Clamp` with ordered bounds is idempotent. -/
theorem clamp_call_idem (c : Clamp) (h : c.lo ≤ c.hi) (x : ℚ) :
    c.call (c.call x) = c.call x := by
  simp only [Clamp.call, min_def, max_def]
  split_ifs <;> linarith

/-- In `plant_step_multi`, a present capacity-positive battery hands the SOC to
`battery_project`. -/
theorem plant_step_soc_eq (state : PlantState) (exog : Exogenous) (ports : Ports)
    (th : ThermalParams) (bat : BatteryParams) (limits : Option ElectricLimits) (s : ℚ)
    (hcap : bat.e_kwh > 0) (hsoc : state.soc = some s) :
    (plant_step_multi state exog ports th (some bat) limits).1.soc =
      some (battery_project ports.p_batt_ch_kw ports.p_batt_dis_kw s th bat).2.2 := by
  simp [plant_step_multi, hsoc, hcap]

/-! ## Claim theorems -/

/-- C1: for every step of `plant_step_multi` with a present battery of strictly
positive capacity and a present SOC (and well-ordered configured bounds), the
SOC in the returned next state lies within `[soc_min, soc_max]`. -/
theorem plant_step_soc_in_bounds (state : PlantState) (exog : Exogenous) (ports : Ports)
    (th : ThermalParams) (bat : BatteryParams) (limits : Option ElectricLimits) (s : ℚ)
    (hcap : bat.e_kwh > 0) (hsoc : state.soc = some s)
    (hb : bat.soc_min ≤ bat.soc_max) :
    ∃ s2, (plant_step_multi state exog ports th (some bat) limits).1.soc = some s2 ∧
      bat.soc_min ≤ s2 ∧ s2 ≤ bat.soc_max := by
  obtain ⟨x, hx⟩ := battery_project_soc_shape ports.p_batt_ch_kw ports.p_batt_dis_kw s th bat
  refine ⟨_, plant_step_soc_eq state exog ports th bat limits s hcap hsoc, ?_⟩
  rw [hx]
  exact clip_mem x _ _ hb

/-- C1 witness: a concrete step whose next SOC stays within `[0.1, 0.9]`. -/
theorem plant_step_soc_in_bounds_witness :
    ∃ s2, (plant_step_multi ⟨20, some (1/2)⟩ ⟨0, 0, 0⟩ {} ⟨1, 1, 1, (-10, 40), 3, 1⟩
        (some ⟨5, 3, 3, 19/20, 19/20, 1/10, 9/10⟩) none).1.soc = some s2 ∧
      1/10 ≤ s2 ∧ s2 ≤ 9/10 :=
  plant_step_soc_in_bounds ⟨20, some (1/2)⟩ ⟨0, 0, 0⟩ {} ⟨1, 1, 1, (-10, 40), 3, 1⟩
    ⟨5, 3, 3, 19/20, 19/20, 1/10, 9/10⟩ none (1/2) (by norm_num) rfl (by norm_num)

/-- C2: for every requested charge/discharge pair, SOC and parameter set, the
projected charge and discharge powers are never both strictly positive; when
both clipped intents remain positive the smaller side is zeroed in the output,
and on an exact tie the charge side is kept (discharge zeroed). -/
theorem battery_project_mutual_exclusive (p_ch_kw p_dis_kw soc : ℚ)
    (th : ThermalParams) (bat : BatteryParams) :
    (¬ ((battery_project p_ch_kw p_dis_kw soc th bat).1 > 0 ∧
        (battery_project p_ch_kw p_dis_kw soc th bat).2.1 > 0)) ∧
    (clip p_ch_kw 0 bat.p_ch_max_kw > 0 → clip p_dis_kw 0 bat.p_dis_max_kw > 0 →
       clip p_ch_kw 0 bat.p_ch_max_kw ≥ clip p_dis_kw 0 bat.p_dis_max_kw →
       (battery_project p_ch_kw p_dis_kw soc th bat).2.1 = 0) ∧
    (clip p_ch_kw 0 bat.p_ch_max_kw > 0 → clip p_dis_kw 0 bat.p_dis_max_kw > 0 →
       clip p_ch_kw 0 bat.p_ch_max_kw < clip p_dis_kw 0 bat.p_dis_max_kw →
       (battery_project p_ch_kw p_dis_kw soc th bat).1 = 0) := by
  refine ⟨?_, ?_, ?_⟩
  · rcases le_or_lt (clip p_ch_kw 0 bat.p_ch_max_kw) 0 with hc | hc
    · simp [battery_project, not_lt.mpr hc]
    · rcases le_or_lt (clip p_dis_kw 0 bat.p_dis_max_kw) 0 with hd | hd
      · simp [battery_project, not_lt.mpr hd]
      · rcases le_or_lt (clip p_dis_kw 0 bat.p_dis_max_kw)
          (clip p_ch_kw 0 bat.p_ch_max_kw) with hge | hlt
        · simp [battery_project, hc, hd, hge]
        · simp [battery_project, hc, hd, not_le.mpr hlt]
  · intro hc hd hge
    simp [battery_project, hc, hd, hge]
  · intro hc hd hlt
    simp [battery_project, hc, hd, not_le.mpr hlt]

/-- C2 witness: a concrete tie-free request where the discharge side is zeroed
and the outputs are not both positive. -/
theorem battery_project_mutual_exclusive_witness :
    (battery_project 2 1 (1/2) ⟨1, 1, 1, (-10, 40), 3, 1⟩
        ⟨5, 3, 3, 19/20, 19/20, 1/10, 9/10⟩).2.1 = 0 ∧
    ¬ ((battery_project 2 1 (1/2) ⟨1, 1, 1, (-10, 40), 3, 1⟩
          ⟨5, 3, 3, 19/20, 19/20, 1/10, 9/10⟩).1 > 0 ∧
       (battery_project 2 1 (1/2) ⟨1, 1, 1, (-10, 40), 3, 1⟩
          ⟨5, 3, 3, 19/20, 19/20, 1/10, 9/10⟩).2.1 > 0) := by
  have h := battery_project_mutual_exclusive 2 1 (1/2) ⟨1, 1, 1, (-10, 40), 3, 1⟩
    ⟨5, 3, 3, 19/20, 19/20, 1/10, 9/10⟩
  exact ⟨h.2.1 (by norm_num [clip, min_def, max_def]) (by norm_num [clip, min_def, max_def])
      (by norm_num [clip, min_def, max_def]), h.1⟩

/-- C3 counterexample: for the paired battery actuator with 3 kW limits and an
exact tie `(0.5, 0.5)`, the source keeps the discharge request (output
`(0, 1.5)`), not the charge request `(1.5, 0)` the claim predicts. -/
theorem batteryActuator_tie_counterexample :
    ({ p_ch_max_kw := 3, p_dis_max_kw := 3, map_split := true } : BatteryActuator).forward
        (BattAction.pair (1/2) (1/2)) = some (0, 3/2) ∧
    ¬ (({ p_ch_max_kw := 3, p_dis_max_kw := 3, map_split := true } : BatteryActuator).forward
        (BattAction.pair (1/2) (1/2)) = some (3/2, 0)) := by
  norm_num [BatteryActuator.forward, clip_uni, Clamp.call, min_def, max_def]

/-- C3 (amended): in the paired encoding, after clamping each component to
`[0,1]`, if both requests are strictly positive then the strictly larger one is
kept and the other zeroed, and an exact tie is resolved in favor of discharge:
the charge request is zeroed and the discharge request kept. -/
theorem batteryActuator_split_larger_kept (ba : BatteryActuator) (a_ch a_dis : ℚ)
    (hm : ba.map_split = true)
    (hc : 0 < clip_uni.call a_ch) (hd : 0 < clip_uni.call a_dis) :
    (clip_uni.call a_dis < clip_uni.call a_ch →
       ba.forward (BattAction.pair a_ch a_dis) =
         some (clip_uni.call a_ch * ba.p_ch_max_kw, 0)) ∧
    (clip_uni.call a_ch ≤ clip_uni.call a_dis →
       ba.forward (BattAction.pair a_ch a_dis) =
         some (0, clip_uni.call a_dis * ba.p_dis_max_kw)) := by
  constructor
  · intro h
    simp [BatteryActuator.forward, hm, h]
  · intro h
    simp [BatteryActuator.forward, hm, not_lt.mpr h]

/-- C3 witness: the spec scenario `(0.8, 0.6)` with 3 kW limits keeps the
charge request, giving 2.4 kW charge and zero discharge. -/
theorem batteryActuator_split_larger_kept_witness :
    ({ p_ch_max_kw := 3, p_dis_max_kw := 3, map_split := true } : BatteryActuator).forward
        (BattAction.pair (4/5) (3/5)) = some (12/5, 0) := by
  have h := (batteryActuator_split_larger_kept
      { p_ch_max_kw := 3, p_dis_max_kw := 3, map_split := true } (4/5) (3/5) rfl
      (by norm_num [clip_uni, Clamp.call, min_def, max_def])
      (by norm_num [clip_uni, Clamp.call, min_def, max_def])).1
      (by norm_num [clip_uni, Clamp.call, min_def, max_def])
  rw [h]
  norm_num [clip_uni, Clamp.call, min_def, max_def]

/-- C4: the battery projection at SOC 0.88 with bound 0.9, capacity 5 kWh,
charge efficiency 0.95, a 2 kW charge request and 1 h steps scales the charge
power to exactly `2 * (1 - 0.36/0.38) = 2/19` kW, and the resulting SOC lands
exactly on the 0.9 bound. -/
theorem battery_project_overflow_scenario :
    battery_project 2 0 (22/25) ⟨1, 1, 1, (-10, 40), 3, 1⟩
        ⟨5, 3, 3, 19/20, 19/20, 1/10, 9/10⟩ =
      (2 * (1 - (36/100) / (38/100)), 0, 9/10) ∧
    2 * (1 - (36/100) / (38/100)) = (2/19 : ℚ) := by
  norm_num [battery_project, clip, min_def, max_def]

/-- C5 counterexample: with an all-zero bus, no battery, indoor and ambient
both 100 °C and unit parameters, the pure ambient-loss equation gives 100 °C
but the step returns 40 °C, the upper clip bound. -/
theorem plant_step_ambient_loss_counterexample :
    (plant_step_multi ⟨100, none⟩ ⟨100, 0, 0⟩ {} ⟨1, 1, 1, (-10, 40), 3, 1⟩
        none none).1.Tin_c = 40 ∧
    ¬ ((plant_step_multi ⟨100, none⟩ ⟨100, 0, 0⟩ {} ⟨1, 1, 1, (-10, 40), 3, 1⟩
        none none).1.Tin_c = 100 + (1 / 1) * 1 * (100 - 100)) := by
  norm_num [plant_step_multi, thermal_step, clip, min_def, max_def]

/-- C5 (amended): with an all-zero bus and no battery, the next indoor
temperature is the pure ambient-loss value clamped to the configured clip
range; in particular it equals the unclamped value exactly whenever that value
already lies within the clip range. -/
theorem plant_step_ambient_loss (state : PlantState) (exog : Exogenous)
    (th : ThermalParams) (limits : Option ElectricLimits) :
    (plant_step_multi state exog {} th none limits).1.Tin_c =
      clip (state.Tin_c + (th.dt_h / th.C_th_kwh_per_degC) * th.U_kw_per_degC *
        (exog.Tout_c - state.Tin_c)) th.clip_temp_c.1 th.clip_temp_c.2 := by
  simp only [plant_step_multi, thermal_step]
  ring_nf

/-- C6: with export disabled, the reported export power is exactly zero and
the import equals the net demand floored at zero and capped at the limit,
where net demand is the diagnostics sum base + device load + projected charge
minus PV used minus projected discharge. -/
theorem plant_step_no_export (state : PlantState) (exog : Exogenous) (ports : Ports)
    (th : ThermalParams) (bat : Option BatteryParams) (limits : ElectricLimits)
    (hexp : limits.allow_export = false) :
    (plant_step_multi state exog ports th bat (some limits)).2.g_export_kw = 0 ∧
    (plant_step_multi state exog ports th bat (some limits)).2.g_import_kw =
      min (max 0 (plant_step_multi state exog ports th bat (some limits)).2.net_kw)
        limits.gmax_kw ∧
    (plant_step_multi state exog ports th bat (some limits)).2.net_kw =
      (plant_step_multi state exog ports th bat (some limits)).2.base_load_kw +
      (plant_step_multi state exog ports th bat (some limits)).2.elec_load_kw +
      (plant_step_multi state exog ports th bat (some limits)).2.p_batt_ch_kw -
      (plant_step_multi state exog ports th bat (some limits)).2.pv_used_kw -
      (plant_step_multi state exog ports th bat (some limits)).2.p_batt_dis_kw := by
  refine ⟨?_, ?_, ?_⟩ <;> simp [plant_step_multi, hexp]

/-- C6 witness: a concrete no-export step with surplus PV reports zero export. -/
theorem plant_step_no_export_witness :
    (plant_step_multi ⟨20, none⟩ ⟨0, 1, 4⟩ { pv_used_kw := 4 }
        ⟨1, 1, 1, (-10, 40), 3, 1⟩ none (some ⟨5, false⟩)).2.g_export_kw = 0 :=
  (plant_step_no_export ⟨20, none⟩ ⟨0, 1, 4⟩ { pv_used_kw := 4 }
    ⟨1, 1, 1, (-10, 40), 3, 1⟩ none ⟨5, false⟩ rfl).1

/-- C7: an absent battery, or a present one with non-positive capacity, is
inert: both projected battery powers are zero and the SOC field of the state
is passed through unchanged (absent stays absent). -/
theorem plant_step_degenerate_battery (state : PlantState) (exog : Exogenous)
    (ports : Ports) (th : ThermalParams) (limits : Option ElectricLimits)
    (bat : Option BatteryParams)
    (hdeg : bat = none ∨ ∃ b, bat = some b ∧ b.e_kwh ≤ 0) :
    (plant_step_multi state exog ports th bat limits).2.p_batt_ch_kw = 0 ∧
    (plant_step_multi state exog ports th bat limits).2.p_batt_dis_kw = 0 ∧
    (plant_step_multi state exog ports th bat limits).1.soc = state.soc := by
  rcases hdeg with h | ⟨b, hb, hcap⟩
  · subst h
    cases hs : state.soc <;> simp [plant_step_multi, hs]
  · subst hb
    cases hs : state.soc <;> simp [plant_step_multi, hs, not_lt.mpr hcap]

/-- C7 witness: a zero-capacity battery with a 2 kW charge request produces no
battery power and leaves the SOC absent. -/
theorem plant_step_degenerate_battery_witness :
    (plant_step_multi ⟨20, none⟩ ⟨0, 0, 0⟩ { p_batt_ch_kw := 2 }
        ⟨1, 1, 1, (-10, 40), 3, 1⟩ (some ⟨0, 3, 3, 19/20, 19/20, 1/10, 9/10⟩)
        none).2.p_batt_ch_kw = 0 :=
  (plant_step_degenerate_battery ⟨20, none⟩ ⟨0, 0, 0⟩ { p_batt_ch_kw := 2 }
    ⟨1, 1, 1, (-10, 40), 3, 1⟩ none (some ⟨0, 3, 3, 19/20, 19/20, 1/10, 9/10⟩)
    (Or.inr ⟨_, rfl, le_refl 0⟩)).1

/-- C8: the heat pump forward fails exactly when no ambient temperature is
supplied and never otherwise, and every device clamps out-of-range actions
instead of rejecting them: each forward agrees with itself at the clamped
action. -/
theorem devices_clamp_and_hp_requires_ambient :
    (∀ (hp : BiDirectionalHeatPump) (action dt_h : ℚ) (t : Option ℚ),
        hp.forward action dt_h t = none ↔ t = none) ∧
    (∀ (hp : BiDirectionalHeatPump) (action dt_h t : ℚ),
        hp.forward action dt_h (some t) =
          hp.forward (if hp.accept_unsigned_action then clip_uni.call action
                      else clip_bi.call action) dt_h (some t)) ∧
    (∀ (rh : ResistiveHeater) (action dt_h : ℚ),
        rh.forward action dt_h = rh.forward (clip_uni.call action) dt_h) ∧
    (∀ (ba : BatteryActuator) (a_ch a_dis : ℚ),
        ba.forward (BattAction.pair a_ch a_dis) =
          ba.forward (BattAction.pair (clip_uni.call a_ch) (clip_uni.call a_dis))) ∧
    (∀ (ba : BatteryActuator) (a : ℚ),
        ba.forward (BattAction.scalar a) =
          ba.forward (BattAction.scalar
            (if ba.map_split then clip_uni.call a else clip_bi.call a))) ∧
    (∀ (action : ℚ) (pv : Option ℚ),
        PVInverter.forward action pv = PVInverter.forward (clip_uni.call action) pv) := by
  have h_uni : ∀ x : ℚ, clip_uni.call (clip_uni.call x) = clip_uni.call x :=
    clamp_call_idem clip_uni (by norm_num [clip_uni])
  have h_bi : ∀ x : ℚ, clip_bi.call (clip_bi.call x) = clip_bi.call x :=
    clamp_call_idem clip_bi (by norm_num [clip_bi])
  refine ⟨?_, ?_, ?_, ?_, ?_, ?_⟩
  · intro hp action dt_h t
    cases t <;> simp [BiDirectionalHeatPump.forward]
  · intro hp action dt_h t
    cases h : hp.accept_unsigned_action <;>
      simp [BiDirectionalHeatPump.forward, h, h_uni, h_bi]
  · intro rh action dt_h
    simp [ResistiveHeater.forward, h_uni]
  · intro ba a_ch a_dis
    cases h : ba.map_split <;> simp [BatteryActuator.forward, h, h_uni]
  · intro ba a
    cases h : ba.map_split <;> simp [BatteryActuator.forward, h, h_uni, h_bi]
  · intro action pv
    simp [PVInverter.forward, h_uni]

/-- C8 witness: a concrete heat pump invoked without ambient temperature
fails, and with ambient supplied it does not fail. -/
theorem devices_clamp_and_hp_requires_ambient_witness :
    ({ pmax_kw := 2 } : BiDirectionalHeatPump).forward 1 1 none = none ∧
    ¬ (({ pmax_kw := 2 } : BiDirectionalHeatPump).forward 1 1 (some 7) = none) := by
  have h := devices_clamp_and_hp_requires_ambient.1
  exact ⟨(h { pmax_kw := 2 } 1 1 none).2 rfl,
    fun hcon => Option.noConfusion ((h { pmax_kw := 2 } 1 1 (some 7)).1 hcon)⟩

/-- C9: for every step with non-negative available PV power, the reported PV
used lies in `[0, available PV]` whatever value the bus carries, and the PV
inverter never emits a negative value for any action and availability. -/
theorem pv_used_within_range (state : PlantState) (exog : Exogenous) (ports : Ports)
    (th : ThermalParams) (bat : Option BatteryParams) (limits : Option ElectricLimits)
    (hpv : 0 ≤ exog.pv_potential_kw) :
    (0 ≤ (plant_step_multi state exog ports th bat limits).2.pv_used_kw ∧
     (plant_step_multi state exog ports th bat limits).2.pv_used_kw ≤
       exog.pv_potential_kw) ∧
    ∀ (action : ℚ) (pv : Option ℚ), 0 ≤ PVInverter.forward action pv := by
  constructor
  · have hval : (plant_step_multi state exog ports th bat limits).2.pv_used_kw =
        max 0 (min ports.pv_used_kw exog.pv_potential_kw) := by
      simp [plant_step_multi]
    rw [hval]
    exact ⟨le_max_left _ _, max_le hpv (min_le_right _ _)⟩
  · intro action pv
    simp only [PVInverter.forward]
    exact le_max_left _ _

/-- C9 witness: a step asking for more PV than is available reports PV used
within `[0, 3]`. -/
theorem pv_used_within_range_witness :
    0 ≤ (plant_step_multi ⟨20, none⟩ ⟨0, 0, 3⟩ { pv_used_kw := 5 }
        ⟨1, 1, 1, (-10, 40), 3, 1⟩ none none).2.pv_used_kw ∧
    (plant_step_multi ⟨20, none⟩ ⟨0, 0, 3⟩ { pv_used_kw := 5 }
        ⟨1, 1, 1, (-10, 40), 3, 1⟩ none none).2.pv_used_kw ≤ 3 :=
  (pv_used_within_range ⟨20, none⟩ ⟨0, 0, 3⟩ { pv_used_kw := 5 }
    ⟨1, 1, 1, (-10, 40), 3, 1⟩ none none (by norm_num)).1

/-- With physically sensible (non-negative) power limits, zero intents pass
through `battery_project` untouched and the SOC is only clamped. -/
theorem battery_project_zero_intent (s : ℚ) (th : ThermalParams) (bat : BatteryParams)
    (hpch : 0 ≤ bat.p_ch_max_kw) (hpdis : 0 ≤ bat.p_dis_max_kw) :
    battery_project 0 0 s th bat = (0, 0, clip (clip s 0 1) bat.soc_min bat.soc_max) := by
  have hc : clip 0 0 bat.p_ch_max_kw = 0 := by
    simp [clip, max_self, min_eq_left hpch]
  have hd : clip 0 0 bat.p_dis_max_kw = 0 := by
    simp [clip, max_self, min_eq_left hpdis]
  simp [battery_project, hc, hd]

/-- Pre-clamping to `[0,1]` is absorbed by a clamp into sub-bounds of `[0,1]`. -/
theorem clip_clip01 (s m M : ℚ) (h0 : 0 ≤ m) (h1 : m ≤ M) (h2 : M ≤ 1) :
    clip (clip s 0 1) m M = clip s m M := by
  simp only [clip, min_def, max_def]
  split_ifs <;> linarith

/-- C10: with a capacity-positive battery present, well-formed bounds and zero
requested intents, the next SOC is the current SOC clamped into
`[soc_min, soc_max]`; an out-of-bounds SOC moves to the nearest bound in one
step even though no battery power flows. -/
theorem plant_step_zero_intent_soc (state : PlantState) (exog : Exogenous) (ports : Ports)
    (th : ThermalParams) (bat : BatteryParams) (limits : Option ElectricLimits) (s : ℚ)
    (hcap : bat.e_kwh > 0) (hsoc : state.soc = some s)
    (hch : ports.p_batt_ch_kw = 0) (hdis : ports.p_batt_dis_kw = 0)
    (h0 : 0 ≤ bat.soc_min) (h1 : bat.soc_min ≤ bat.soc_max) (h2 : bat.soc_max ≤ 1)
    (hpch : 0 ≤ bat.p_ch_max_kw) (hpdis : 0 ≤ bat.p_dis_max_kw) :
    (plant_step_multi state exog ports th (some bat) limits).1.soc =
      some (clip s bat.soc_min bat.soc_max) := by
  rw [plant_step_soc_eq state exog ports th bat limits s hcap hsoc, hch, hdis,
    battery_project_zero_intent s th bat hpch hpdis]
  simp [clip_clip01 s bat.soc_min bat.soc_max h0 h1 h2]

/-- C10 witness: SOC 0.975 with zero intents is pulled down to the 0.9 bound
in one step. -/
theorem plant_step_zero_intent_soc_witness :
    (plant_step_multi ⟨20, some (39/40)⟩ ⟨0, 0, 0⟩ {} ⟨1, 1, 1, (-10, 40), 3, 1⟩
        (some ⟨5, 3, 3, 19/20, 19/20, 1/10, 9/10⟩) none).1.soc = some (9/10) := by
  have h := plant_step_zero_intent_soc ⟨20, some (39/40)⟩ ⟨0, 0, 0⟩ {}
    ⟨1, 1, 1, (-10, 40), 3, 1⟩ ⟨5, 3, 3, 19/20, 19/20, 1/10, 9/10⟩ none (39/40)
    (by norm_num) rfl rfl rfl (by norm_num) (by norm_num) (by norm_num)
    (by norm_num) (by norm_num)
  rw [h]
  norm_num [clip, min_def, max_def]

end ThermalToy
